import Mathlib

/-!
Shallow embedding of `exutil.py`, a small CLI that dispatches prefix-resolved
commands (migrate, test, submit, restore, checkin) over glob-expanded exercise
targets.  Pure string/list manipulations become Lean functions; the external
world (subprocess exit codes, the filesystem, the test runner) is passed in as
explicit oracle parameters; Python exceptions become an `Except` error type.
-/

namespace Exutil

/-! ## Python dynamic values and exceptions -/

/-- Python exceptions that the program can raise or handle. -/
inductive PyErr where
  | attributeError
  | typeError
  | fileNotFoundError
  /-- `subprocess.CalledProcessError`: `output` is `e.output` (decoded bytes,
  or `none` when the call captured nothing), `returncode` is `e.returncode`. -/
  | calledProcessError (output : Option String) (returncode : Int)
  /-- `SystemExit` raised by `sys.exit(code)`. -/
  | systemExit (code : Option Int)
deriving DecidableEq

/-- Python values that flow through the dynamically-typed expressions the
program evaluates (`0`, `b"..."`, `"..."`, `None`). -/
inductive PyVal where
  | none
  | int (n : Int)
  | str (s : String)
  | bytes (b : String)
deriving DecidableEq

/-- `v.decode()`: defined on `bytes` only; on `int`, `str` or `None` Python
raises `AttributeError`. -/
def PyVal.decode : PyVal → Except PyErr PyVal
  | .bytes b => .ok (.str b)
  | _ => .error .attributeError

/-- `v.strip()`: defined on `str` (and `bytes`); otherwise `AttributeError`. -/
def PyVal.strip : PyVal → Except PyErr PyVal
  | .str s => .ok (.str s.trim)
  | .bytes b => .ok (.bytes b.trim)
  | _ => .error .attributeError

/-- `' '.join(items)`: concatenates with separator, raising `TypeError` as
soon as a non-`str` item is encountered (exactly Python's behaviour). -/
def pyJoin (sep : String) : List PyVal → Except PyErr String
  | [] => .ok ""
  | [v] =>
    match v with
    | .str s => .ok s
    | _ => .error .typeError
  | v :: rest =>
    match v with
    | .str s =>
      match pyJoin sep rest with
      | .ok r => .ok (s ++ sep ++ r)
      | .error e => .error e
    | _ => .error .typeError

/-- `s.replace(a, b)` for single-character `a`, `b` (all uses in the source
replace `'-'` by `'_'`). -/
def pyReplace (s : String) (a b : Char) : String :=
  String.mk (s.toList.map (fun c => if c = a then b else c))

/-- `big.startswith(small)` (`str.startswith`), via the character lists. -/
def listIsPre : List Char → List Char → Bool
  | [], _ => true
  | _ :: _, [] => false
  | a :: as, b :: bs => a == b && listIsPre as bs

def pyStartsWith (big small : String) : Bool :=
  listIsPre small.toList big.toList

/-! ## `RGX_LIST = re.compile('[ ,;]')` and `RGX_LIST.split(value)`

The regex matches exactly one character from the class, so `re.split` cuts the
string at every single delimiter character; adjacent delimiters produce empty
fields (`re.split` never collapses runs). -/

/-- A character matched by the class `[ ,;]`. -/
def isDelim (c : Char) : Bool := c == ' ' || c == ',' || c == ';'

/-- `re.split('[ ,;]', ·)` on the character list: cut at every single
delimiter occurrence.  Always returns at least one (possibly empty) field. -/
def rgxSplitChars : List Char → List (List Char)
  | [] => [[]]
  | c :: cs =>
    if isDelim c then [] :: rgxSplitChars cs
    else
      match rgxSplitChars cs with
      | [] => [[c]]
      | t :: ts => (c :: t) :: ts

/-- `RGX_LIST.split(value)` on strings. -/
def rgxListSplit (s : String) : List String :=
  (rgxSplitChars s.toList).map String.mk

/-! Spec-side definition, for the refinement comparison only.  The spec reads
"split on any run of space, comma, or semicolon characters": collapse each run
of delimiters to a single delimiter, then cut (this matches
`re.split('[ ,;]+', ·)`). -/

/-- Collapse every run of delimiter characters down to its first character. -/
def dedupDelims : List Char → List Char
  | [] => []
  | c :: cs =>
    if isDelim c then c :: ((dedupDelims cs).dropWhile isDelim)
    else c :: dedupDelims cs

/-- Spec-side splitter, following the spec's words: split on any *run* of
space, comma, or semicolon characters. -/
def splitOnRuns (s : String) : List String :=
  (rgxSplitChars (dedupDelims s.toList)).map String.mk

/-! ## `ExtendAction` (the list-argument parser) -/

/-- One `ExtendAction.__extend__(namespace, value)` step: read the current
destination value (`None` becomes `[]`), split the raw value with `RGX_LIST`,
and append all pieces. -/
def extendOnce (current : Option (List String)) (value : String) : List String :=
  (match current with
   | Option.none => []
   | some l => l) ++ rgxListSplit value

/-- `ExtendAction.__call__` when `values` is a list (`nargs='+'`): extend once
per element, threading the namespace value. -/
def callList (current : Option (List String)) : List String → Option (List String)
  | [] => current
  | v :: vs => callList (some (extendOnce current v)) vs

/-- The destination value after a whole parse: start from the option's
configured default and run one `__extend__` per occurrence of the option. -/
def accumulate (dflt : Option (List String)) : List String → Option (List String)
  | [] => dflt
  | v :: vs => accumulate (some (extendOnce dflt v)) vs

/-! ## `CommandManager` (registry, `register`, `find_best`)

Commands are represented by their `__name__`; the registry is the list
`self.commands` which `register` re-sorts by name after each append. -/

/-- Byte-wise lexicographic order on character lists (Python's `<=` on the
ASCII command names). -/
def charListLe : List Char → List Char → Bool
  | [], _ => true
  | _ :: _, [] => false
  | a :: as, b :: bs =>
    if a.val < b.val then true
    else if b.val < a.val then false
    else charListLe as bs

def strLe (a b : String) : Bool := charListLe a.toList b.toList

/-- Insert into a sorted list (one step of sorting). -/
def insertSorted (n : String) : List String → List String
  | [] => [n]
  | m :: ms => if strLe n m then n :: m :: ms else m :: insertSorted n ms

/-- Sort a list of names (`self.commands.sort(key=lambda f: f.__name__)`). -/
def sortNames (l : List String) : List String := l.foldr insertSorted []

/-- `CommandManager.register`: append, then sort by name. -/
def register (cmds : List String) (n : String) : List String :=
  sortNames (cmds ++ [n])

/-- The registry after the module's five `@cmd_mgr.register` decorators run,
in source order. -/
def cmd_mgr : List String :=
  ["migrate", "test", "submit", "restore", "checkin"].foldl register []

/-- Outcome of `CommandManager.find_best`. -/
inductive FindResult where
  /-- exactly one command name starts with the prefix: return it -/
  | found (cmd : String)
  /-- no match: print `Unknown command` and `sys.exit(1)` -/
  | exitUnknown (code : Int)
  /-- several matches: print them all and `sys.exit(1)` -/
  | exitAmbiguous (code : Int) (cands : List String)
deriving DecidableEq

/-- `CommandManager.find_best(s)`: filter the registered names by
`name.startswith(s)` and case on how many matched. -/
def find_best (cmds : List String) (s : String) : FindResult :=
  match cmds.filter (fun n => pyStartsWith n s) with
  | [m] => .found m
  | [] => .exitUnknown 1
  | ms => .exitAmbiguous 1 ms

/-! ## `terminal` and the subprocess helpers

The exit status of each external command line is supplied by an oracle
`procExit : List String → Int`.  `terminal` executes (in the source)

    print(' '.join(args))
    sp.check_call(args, stderr=sp.STDOUT).decode().strip()

`sp.check_call` captures no output; it raises
`CalledProcessError(returncode, cmd)` (whose `output` attribute is `None`) on
a non-zero exit and returns the *int* `0` otherwise, on which `.decode()` is
then invoked. -/

/-- `sp.check_call(args, stderr=sp.STDOUT)`: int `0` on success, else
`CalledProcessError` with `output = None` (nothing was captured). -/
def check_call (procExit : List String → Int) (args : List String) :
    Except PyErr PyVal :=
  if procExit args = 0 then .ok (.int 0)
  else .error (.calledProcessError Option.none (procExit args))

/-- `terminal(*args)`.  The function body's value expression is discarded and
the function returns `None` — if the `.decode().strip()` chain ever got
that far. -/
def terminal (procExit : List String → Int) (args : List String) :
    Except PyErr PyVal :=
  match check_call procExit args with
  | .error e => .error e
  | .ok r =>
    match r.decode with
    | .error e => .error e
    | .ok d =>
      match d.strip with
      | .error e => .error e
      | .ok _ => .ok .none

/-- `exercism(*args) = terminal('exercism', *args)`. -/
def exercism (procExit : List String → Int) (args : List String) :
    Except PyErr PyVal :=
  terminal procExit ("exercism" :: args)

/-- `git(*args) = terminal('git', *args)`. -/
def git (procExit : List String → Int) (args : List String) :
    Except PyErr PyVal :=
  terminal procExit ("git" :: args)

/-! ## Filesystem model

Paths are plain strings; `os.path.join(a, b)` is `a ++ "/" ++ b`. -/

structure Fs where
  files : List String
  dirs : List String
deriving DecidableEq

/-- `os.path.isfile`. -/
def Fs.isFile (fs : Fs) (p : String) : Bool := fs.files.contains p

/-- `os.path.isdir`. -/
def Fs.isDir (fs : Fs) (p : String) : Bool := fs.dirs.contains p

/-- Whether path `p` lies strictly under directory `d`. -/
def underDir (d p : String) : Bool := listIsPre (d ++ "/").toList p.toList

/-- `shutil.copy2(src, dst)`: raises `FileNotFoundError` when `src` is
missing, otherwise (re)creates `dst`. -/
def copy2 (fs : Fs) (src dst : String) : Except PyErr Fs :=
  if fs.isFile src then
    .ok { fs with
          files := if fs.files.contains dst then fs.files else fs.files ++ [dst] }
  else .error .fileNotFoundError

/-- `shutil.rmtree(d)`: raises `FileNotFoundError` when `d` is missing,
otherwise removes the directory and everything under it. -/
def rmtree (fs : Fs) (d : String) : Except PyErr Fs :=
  if fs.isDir d then
    .ok { files := fs.files.filter (fun f => !underDir d f),
          dirs := fs.dirs.filter (fun x => !(x == d) && !underDir d x) }
  else .error .fileNotFoundError

/-! ## The task actions -/

/-- The `for filename in (...)` copy loop of `migrate`: copy each named file
from `srcDir` into `dstDir`, stopping (with the raised error) at the first
failing copy.  Returns the filesystem reached together with the error, if
any. -/
def copyFiles (fs : Fs) (srcDir dstDir : String) :
    List String → Fs × Option PyErr
  | [] => (fs, Option.none)
  | n :: ns =>
    match copy2 fs (srcDir ++ "/" ++ n) (dstDir ++ "/" ++ n) with
    | .error e => (fs, some e)
    | .ok fs2 => copyFiles fs2 srcDir dstDir ns

/-- `migrate(exercise)`.  The `exercism download` subprocess both changes the
filesystem (oracle `downloadFx`, applied when the subprocess runs, i.e.
inside `check_call`, before its exit status is examined) and reports an exit
status (via `procExit`).  The value component is the function's Python
result: `.ok none` for a normal `return`, `.error e` for an escaping
exception. -/
def migrate (procExit : List String → Int) (downloadFx : Fs → Fs) (fs : Fs)
    (exercise : String) : Fs × Except PyErr (Option Int) :=
  if fs.isFile (exercise ++ "/" ++ ".solution.json") then
    (fs, .ok Option.none)
  else
    let fs1 := downloadFx fs
    match exercism procExit ["download", "-t", "python", "-e", exercise] with
    | .error e => (fs1, .error e)
    | .ok _ =>
      let srcDir := exercise ++ "-2"
      if !fs1.isDir srcDir then
        let solutionFile := pyReplace exercise '-' '_' ++ ".py"
        match git procExit ["checkout", "--", exercise ++ "/" ++ solutionFile] with
        | .error e => (fs1, .error e)
        | .ok _ => (fs1, .ok Option.none)
      else
        match copyFiles fs1 srcDir exercise
            [".solution.json", "README.md", pyReplace exercise '-' '_' ++ "_test.py"] with
        | (fs2, some e) => (fs2, .error e)
        | (fs2, Option.none) =>
          match rmtree fs2 srcDir with
          | .error e => (fs2, .error e)
          | .ok fs3 => (fs3, .ok Option.none)

/-- `test(exercise)`: build `args = ['-x', exercise]`, extend with
`('--timeout', opts.timeout)` when a timeout is configured (`opts.timeout` is
an *int* there), evaluate `' '.join(['pytest', *args])` for the echo, then
return `pytest.main(args)` (oracle `runner`). -/
def test (timeout : Option Int) (runner : List PyVal → Int) (exercise : String) :
    Except PyErr (Option Int) :=
  let args : List PyVal :=
    [.str "-x", .str exercise] ++
      (match timeout with
       | some t => [.str "--timeout", .int t]
       | Option.none => [])
  match pyJoin " " (.str "pytest" :: args) with
  | .error e => .error e
  | .ok _ => .ok (some (runner args))

/-- `submit(exercise)`. -/
def submit (procExit : List String → Int) (exercise : String) :
    Except PyErr (Option Int) :=
  let solutionFileName := pyReplace exercise '-' '_' ++ ".py"
  let solutionFilePath := exercise ++ "/" ++ solutionFileName
  match exercism procExit ["submit", solutionFilePath] with
  | .error e => .error e
  | .ok _ => .ok Option.none

/-- `restore(exercise)`: `shutil.rmtree(exercise)` then
`git('checkout', '--', exercise)` (the checkout's own filesystem effect is
external and unreachable anyway). -/
def restore (procExit : List String → Int) (fs : Fs) (exercise : String) :
    Fs × Except PyErr (Option Int) :=
  match rmtree fs exercise with
  | .error e => (fs, .error e)
  | .ok fs1 =>
    match git procExit ["checkout", "--", exercise] with
    | .error e => (fs1, .error e)
    | .ok _ => (fs1, .ok Option.none)

/-- `checkin(exercise)`. -/
def checkin (procExit : List String → Int) (exercise : String) :
    Except PyErr (Option Int) :=
  match git procExit ["add", exercise] with
  | .error e => .error e
  | .ok _ => .ok Option.none

/-! ## The `task` decorator's wrapper -/

/-- What an invocation of the decorated wrapper does to the process. -/
inductive TaskOutcome where
  /-- the wrapper returns normally, with this Python value -/
  | ret (v : Option Int)
  /-- the wrapper calls `sys.exit(code)` -/
  | exit (code : Option Int)
  /-- an exception escapes the wrapper uncaught -/
  | crash (e : PyErr)
deriving DecidableEq

/-- The body of `_wrapper` in `task`, given the outcome `run` of calling the
wrapped `function(target)` (the verbose/captured branches differ only in what
is printed).  On normal completion the wrapper prints `Done` and falls off
the end — *discarding* `function`'s return value and returning `None`.  The
`except sp.CalledProcessError` handler evaluates `e.output.decode()`: when
`e.output` is `None` (as it is for `sp.check_call`) this itself raises
`AttributeError`, which nothing catches; with real captured output it prints
and calls `sys.exit(e.returncode)`.  The `except SystemExit` handler prints
`Failed` and re-exits with the same code. -/
def task (run : Except PyErr (Option Int)) : TaskOutcome :=
  match run with
  | .ok _ => .ret Option.none
  | .error (.calledProcessError output returncode) =>
    match output with
    | some _ => .exit (some returncode)
    | Option.none => .crash .attributeError
  | .error (.systemExit code) => .exit code
  | .error e => .crash e

/-! ## The dispatch loop (`__main__`)

    for pattern in opts.exercise:
        for ex in glob(pattern):
            if ex in opts.ignore:
                continue
            for command in opts.command:
                ret = command(ex)
                if ret not in {None, 0}:
                    sys.exit(ret)

Commands are modelled at the loop's level of observation: functions from a
target to the Python value they return (`none` = `None`).  The loop's trace
records each performed call as `(command index, target)`. -/

abbrev Cmd := String → Option Int

/-- The inner `for command in opts.command` loop, over the commands from
index `i` on: runs each command on `ex`, recording the calls, and stops with
the returned value when it is neither `None` nor `0`. -/
def runCmdsFrom (i : Nat) (ex : String) :
    List Cmd → List (Nat × String) × Option Int
  | [] => ([], Option.none)
  | c :: cs =>
    let r := c ex
    if r = Option.none ∨ r = some 0 then
      let p := runCmdsFrom (i + 1) ex cs
      ((i, ex) :: p.1, p.2)
    else ([(i, ex)], r)

/-- The outer loop over the (already glob-expanded, ignore-filtered)
targets: when the inner loop hit `sys.exit(ret)` (second component `some`),
the whole process stops there; otherwise continue with the next target. -/
def runTargets (cmds : List Cmd) : List String → List (Nat × String) × Option Int
  | [] => ([], Option.none)
  | ex :: rest =>
    let p := runCmdsFrom 0 ex cmds
    if p.2 = Option.none then
      let q := runTargets cmds rest
      (p.1 ++ q.1, q.2)
    else p

/-- The whole `__main__` loop: expand each pattern with the glob oracle,
drop targets in the ignore list, run the commands.  The result is the list of
calls performed (in order) and the `sys.exit` code, if any. -/
def dispatch (globFn : String → List String) (ignore : List String)
    (cmds : List Cmd) (patterns : List String) :
    List (Nat × String) × Option Int :=
  runTargets cmds ((patterns.flatMap globFn).filter (fun ex => !ignore.contains ex))

/-! Spec-side view of the dispatch loop, for the refinement statement: the
flat list of (indexed command, target) pairs in command-nested-inside-target
order, consumed left to right until the first failing call. -/

/-- All (indexed command, target) pairs, command order nested inside target
order. -/
def productCalls (cmds : List Cmd) (targets : List String) :
    List ((Nat × Cmd) × String) :=
  targets.flatMap (fun ex => cmds.enum.map (fun ic => (ic, ex)))

/-- Consume a flat call list left to right, stopping at the first call whose
result is neither `None` nor `0`. -/
def runCalls : List ((Nat × Cmd) × String) → List (Nat × String) × Option Int
  | [] => ([], Option.none)
  | ((i, c), ex) :: rest =>
    let r := c ex
    if r = Option.none ∨ r = some 0 then
      let p := runCalls rest
      ((i, ex) :: p.1, p.2)
    else ([(i, ex)], r)

/-! ## Theorems -/

/-- The inner command loop agrees with the flat run over the indexed command
list. -/
theorem runCmdsFrom_eq (ex : String) (cs : List Cmd) :
    ∀ i : Nat,
      runCmdsFrom i ex cs
        = runCalls ((cs.enumFrom i).map (fun ic => (ic, ex))) := by
  induction cs with
  | nil => intro i; rfl
  | cons c cs ih =>
    intro i
    simp only [List.enumFrom, List.map_cons, runCmdsFrom, runCalls]
    by_cases hr : c ex = Option.none ∨ c ex = some 0
    · simp [hr, ih]
    · simp [hr]

/-- Running a concatenation of call lists: if the first part finishes without
a failing call, continue into the second, else stop inside the first. -/
theorem runCalls_append (l₁ l₂ : List ((Nat × Cmd) × String)) :
    runCalls (l₁ ++ l₂) =
      if (runCalls l₁).2 = Option.none
      then ((runCalls l₁).1 ++ (runCalls l₂).1, (runCalls l₂).2)
      else runCalls l₁ := by
  induction l₁ with
  | nil => simp [runCalls]
  | cons p l₁ ih =>
    obtain ⟨⟨i, c⟩, ex⟩ := p
    by_cases hr : c ex = Option.none ∨ c ex = some 0
    · simp only [List.cons_append, runCalls, hr, if_pos, ih]
      by_cases h2 : (runCalls l₁).2 = Option.none <;> simp [h2, ih]
    · have hne : ¬ c ex = Option.none := fun h => hr (Or.inl h)
      have hz : ¬ c ex = some 0 := fun h => hr (Or.inr h)
      simp [runCalls, hr, hne, hz]

/-- The nested dispatch loops agree with the flat left-to-right run over the
full (command, target) product. -/
theorem runTargets_eq_runCalls (cmds : List Cmd) (targets : List String) :
    runTargets cmds targets = runCalls (productCalls cmds targets) := by
  induction targets with
  | nil => rfl
  | cons ex rest ih =>
    have h0 := runCmdsFrom_eq ex cmds 0
    simp only [productCalls, List.flatMap_cons] at *
    rw [runCalls_append, runTargets]
    simp only [List.enum, ← h0, ih]

/-- C6: the dispatch loop expands each pattern with the glob, skips targets
in the ignore set, and performs the command calls in command order nested
inside target order, stopping at the first call whose result is neither
`None` nor `0` and exiting with that result; for targets `ex1, ex2` and two
commands the call order is `(cmdA, ex1), (cmdB, ex1), (cmdA, ex2),
(cmdB, ex2)`. -/
theorem c6_dispatch_order (globFn : String → List String) (ignore : List String)
    (cmds : List Cmd) (patterns : List String) :
    dispatch globFn ignore cmds patterns
      = runCalls (productCalls cmds
          ((patterns.flatMap globFn).filter (fun ex => !ignore.contains ex)))
    ∧ dispatch (fun p => [p]) [] [fun _ => Option.none, fun _ => some 0]
        ["ex1", "ex2"]
        = ([(0, "ex1"), (1, "ex1"), (0, "ex2"), (1, "ex2")], Option.none)
    ∧ dispatch (fun p => [p]) [] [fun _ => Option.none, fun _ => some 3]
        ["ex1", "ex2"]
        = ([(0, "ex1"), (1, "ex1")], some 3)
    ∧ dispatch (fun p => [p]) ["ex1"] [fun _ => Option.none] ["ex1", "ex2"]
        = ([(0, "ex2")], Option.none) :=
  ⟨runTargets_eq_runCalls cmds _, by decide, by decide, by decide⟩

/-- C4: `find_best` returns the unique registered command whose name starts
with the prefix when exactly one matches, exits with status 1 reporting
unknown on zero matches, and exits with status 1 listing all matching names
on several matches; on the actual registry, `"mi"` and `"m"` resolve to
`migrate` and `"zz"` is unknown. -/
theorem c4_find_best_resolution (cmds : List String) (s : String) :
    (∀ m, cmds.filter (fun n => pyStartsWith n s) = [m] →
      find_best cmds s = .found m)
    ∧ (cmds.filter (fun n => pyStartsWith n s) = [] →
      find_best cmds s = .exitUnknown 1)
    ∧ (∀ m₁ m₂ ms, cmds.filter (fun n => pyStartsWith n s) = m₁ :: m₂ :: ms →
      find_best cmds s = .exitAmbiguous 1 (m₁ :: m₂ :: ms))
    ∧ find_best cmd_mgr "mi" = .found "migrate"
    ∧ find_best cmd_mgr "m" = .found "migrate"
    ∧ find_best cmd_mgr "zz" = .exitUnknown 1 := by
  refine ⟨?_, ?_, ?_, by decide, by decide, by decide⟩
  · intro m h; simp [find_best, h]
  · intro h; simp [find_best, h]
  · intro m₁ m₂ ms h; simp [find_best, h]

/-- Witness for C4 at concrete inputs, covering all three branches. -/
theorem c4_find_best_resolution_witness :
    find_best ["checkin", "migrate", "restore", "submit", "test"] "mi"
      = .found "migrate"
    ∧ find_best ["checkin", "migrate", "restore", "submit", "test"] "zz"
      = .exitUnknown 1
    ∧ find_best ["go", "goto"] "go" = .exitAmbiguous 1 ["go", "goto"] := by
  refine ⟨?_, ?_, ?_⟩
  · exact (c4_find_best_resolution
      ["checkin", "migrate", "restore", "submit", "test"] "mi").1 "migrate"
      (by decide)
  · exact (c4_find_best_resolution
      ["checkin", "migrate", "restore", "submit", "test"] "zz").2.1 (by decide)
  · exact (c4_find_best_resolution ["go", "goto"] "go").2.2.1 "go" "goto" []
      (by decide)

/-- C5 counterexample: `RGX_LIST.split` does *not* split on runs of
delimiters — on `"a,,b"` the code yields `["a", "", "b"]` while the claimed
run-splitting yields `["a", "b"]`. -/
theorem c5_counterexample_split_runs :
    rgxListSplit "a,,b" = ["a", "", "b"]
    ∧ splitOnRuns "a,,b" = ["a", "b"]
    ∧ rgxListSplit "a,,b" ≠ splitOnRuns "a,,b" := by
  refine ⟨by decide, by decide, by decide⟩

/-- C5 amended: each supplied value is split at every *single* occurrence of
a space, comma, or semicolon character (adjacent delimiters yield empty
substrings), and `"a,b c;d"`, whose tokens are separated by single
delimiters, splits into exactly `["a", "b", "c", "d"]`. -/
theorem c5_split_single_delimiters (w rest : List Char) (d : Char)
    (hw : ∀ c ∈ w, isDelim c = false) (hd : isDelim d = true) :
    rgxSplitChars (w ++ d :: rest) = w :: rgxSplitChars rest
    ∧ rgxListSplit "a,b c;d" = ["a", "b", "c", "d"] := by
  constructor
  · induction w with
    | nil => simp [rgxSplitChars, hd]
    | cons c w ih =>
      have hc : isDelim c = false := hw c (by simp)
      have ih2 := ih (fun x hx => hw x (by simp [hx]))
      simp [rgxSplitChars, hc, ih2]
  · decide

/-- Witness for C5's amended statement at a concrete input. -/
theorem c5_split_single_delimiters_witness :
    rgxSplitChars (['x'] ++ ',' :: ['y']) = ['x'] :: rgxSplitChars ['y'] :=
  (c5_split_single_delimiters ['x'] ['y'] ',' (by decide) (by decide)).1

/-- C7: values from repeated occurrences of a list option are appended, in
order, to what is already accumulated (never replacing it); an option never
supplied keeps its configured default; supplying `"a"` then `"b,c"` on the
default `[]` accumulates `["a", "b", "c"]`. -/
theorem c7_extend_appends (d cur : List String) (vs : List String) (v : String) :
    accumulate (some d) vs = some (d ++ (vs.map rgxListSplit).flatten)
    ∧ (∀ dflt : Option (List String), accumulate dflt [] = dflt)
    ∧ extendOnce (some cur) v = cur ++ rgxListSplit v
    ∧ accumulate (some []) ["a", "b,c"] = some ["a", "b", "c"] := by
  refine ⟨?_, fun _ => rfl, rfl, by decide⟩
  induction vs generalizing d with
  | nil => simp [accumulate]
  | cons v vs ih => simp [accumulate, extendOnce, ih]

/-- C10: whenever a timeout is configured, `test` puts the timeout *int* in
the argument list, so `' '.join(['pytest', *args])` raises `TypeError` before
`pytest.main` is ever invoked (for every runner); without a timeout the
runner's result code is returned. -/
theorem c10_timeout_type_error (t : Int) (runner : List PyVal → Int)
    (ex : String) :
    test (some t) runner ex = .error .typeError
    ∧ test Option.none runner ex = .ok (some (runner [.str "-x", .str ex])) :=
  ⟨rfl, rfl⟩

/-- C2: whenever the external program exits with status zero, `terminal`
evaluates `.decode()` on the *int* `0` returned by `sp.check_call` and so
raises `AttributeError` instead of returning; consequently each task that
shells out (`migrate` past its marker check, `submit`, `restore` on an
existing directory, `checkin`) raises even though the tool succeeded. -/
theorem c2_terminal_attribute_error (procExit : List String → Int)
    (args : List String) (fs : Fs) (dlFx : Fs → Fs) (ex : String) :
    (procExit args = 0 → terminal procExit args = .error .attributeError)
    ∧ PyVal.decode (.int 0) = .error .attributeError
    ∧ ((∀ a, procExit a = 0) →
        fs.isFile (ex ++ "/" ++ ".solution.json") = false →
        (migrate procExit dlFx fs ex).2 = .error .attributeError)
    ∧ ((∀ a, procExit a = 0) → submit procExit ex = .error .attributeError)
    ∧ ((∀ a, procExit a = 0) → fs.isDir ex = true →
        (restore procExit fs ex).2 = .error .attributeError)
    ∧ ((∀ a, procExit a = 0) → checkin procExit ex = .error .attributeError) := by
  have hterm : ∀ as, procExit as = 0 →
      terminal procExit as = .error .attributeError := by
    intro as h
    simp [terminal, check_call, h, PyVal.decode]
  refine ⟨hterm args, rfl, ?_, ?_, ?_, ?_⟩
  · intro hall hm
    simp [migrate, hm, exercism, hterm _ (hall _)]
  · intro hall
    simp [submit, exercism, hterm _ (hall _)]
  · intro hall hd
    simp [restore, rmtree, hd, git, hterm _ (hall _)]
  · intro hall
    simp [checkin, git, hterm _ (hall _)]

/-- Witness for C2 at concrete inputs. -/
theorem c2_terminal_attribute_error_witness :
    terminal (fun _ => 0) ["git", "add", "two-fer"] = .error .attributeError
    ∧ submit (fun _ => 0) "two-fer" = .error .attributeError := by
  constructor
  · exact (c2_terminal_attribute_error (fun _ => 0) ["git", "add", "two-fer"]
      ⟨[], []⟩ id "two-fer").1 rfl
  · exact (c2_terminal_attribute_error (fun _ => 0) [] ⟨[], []⟩ id
      "two-fer").2.2.2.1 (fun _ => rfl)

/-- C8: when the marker file `<exercise>/.solution.json` exists, `migrate`
returns normally at once — for every download oracle and subprocess oracle
the filesystem is returned unchanged and nothing is downloaded or copied. -/
theorem c8_migrate_marker_noop (procExit : List String → Int) (dlFx : Fs → Fs)
    (fs : Fs) (ex : String)
    (h : fs.isFile (ex ++ "/" ++ ".solution.json") = true) :
    migrate procExit dlFx fs ex = (fs, .ok Option.none) := by
  simp [migrate, h]

/-- Witness for C8 at a concrete filesystem. -/
theorem c8_migrate_marker_noop_witness :
    migrate (fun _ => 0) id ⟨["two-fer/.solution.json"], ["two-fer"]⟩ "two-fer"
      = (⟨["two-fer/.solution.json"], ["two-fer"]⟩, .ok Option.none) :=
  c8_migrate_marker_noop (fun _ => 0) id
    ⟨["two-fer/.solution.json"], ["two-fer"]⟩ "two-fer" (by decide)

/-- C1: evaluation at the failing input.  The undecorated `test` does return
the runner's result code `1`, but the `task` wrapper discards the wrapped
function's return value and returns `None`, so the dispatch loop never sees
the code: dispatching a command that returns `None` exits with nothing, while
the loop *would* exit with `1` had the value reached it (last conjunct). -/
theorem c1_wrapper_discards_test_result :
    test Option.none (fun _ => 1) "two-fer" = .ok (some 1)
    ∧ task (test Option.none (fun _ => 1) "two-fer") = .ret Option.none
    ∧ dispatch (fun p => [p]) [] [fun _ => Option.none] ["two-fer"]
        = ([(0, "two-fer")], Option.none)
    ∧ dispatch (fun p => [p]) [] [fun _ => some 1] ["two-fer"]
        = ([(0, "two-fer")], some 1) :=
  ⟨rfl, rfl, by decide, by decide⟩

/-- C3: evaluation at the failing input.  A wrapped subprocess exiting `2`
raises `CalledProcessError` whose `output` is `None` (`sp.check_call`
captures nothing), and the wrapper's handler then crashes evaluating
`e.output.decode()` with `AttributeError` — it neither prints captured output
nor exits with code `2`. -/
theorem c3_handler_crashes_on_output_none :
    terminal (fun _ => 2) ["git", "add", "two-fer"]
      = .error (.calledProcessError Option.none 2)
    ∧ checkin (fun _ => 2) "two-fer"
      = .error (.calledProcessError Option.none 2)
    ∧ task (checkin (fun _ => 2) "two-fer") = .crash .attributeError :=
  ⟨rfl, rfl, rfl⟩

/-- C9: evaluation at the failing input.  Starting without the marker and
with a download whose subprocess succeeds (exit 0) and creates `two-fer-2`
with the three files, `migrate` crashes with `AttributeError` inside
`terminal` right after the download subprocess: no file is copied into
`two-fer` and `two-fer-2` still exists afterwards, contrary to the claim.
The last two conjuncts show the copy branch itself (lines the crash makes
unreachable) performs exactly the claimed three copies and the removal. -/
theorem c9_migrate_never_reaches_copy :
    (migrate (fun _ => 0)
        (fun fs => ⟨fs.files ++ ["two-fer-2/.solution.json",
                                 "two-fer-2/README.md",
                                 "two-fer-2/two_fer_test.py"],
                    fs.dirs ++ ["two-fer-2"]⟩)
        ⟨["two-fer/two_fer.py"], ["two-fer"]⟩ "two-fer")
      = (⟨["two-fer/two_fer.py", "two-fer-2/.solution.json",
           "two-fer-2/README.md", "two-fer-2/two_fer_test.py"],
          ["two-fer", "two-fer-2"]⟩, .error .attributeError)
    ∧ (⟨["two-fer/two_fer.py", "two-fer-2/.solution.json",
         "two-fer-2/README.md", "two-fer-2/two_fer_test.py"],
        ["two-fer", "two-fer-2"]⟩ : Fs).isDir "two-fer-2" = true
    ∧ (⟨["two-fer/two_fer.py", "two-fer-2/.solution.json",
         "two-fer-2/README.md", "two-fer-2/two_fer_test.py"],
        ["two-fer", "two-fer-2"]⟩ : Fs).isFile "two-fer/README.md" = false
    ∧ copyFiles
        ⟨["two-fer/two_fer.py", "two-fer-2/.solution.json",
          "two-fer-2/README.md", "two-fer-2/two_fer_test.py"],
         ["two-fer", "two-fer-2"]⟩ "two-fer-2" "two-fer"
        [".solution.json", "README.md", "two_fer_test.py"]
      = (⟨["two-fer/two_fer.py", "two-fer-2/.solution.json",
           "two-fer-2/README.md", "two-fer-2/two_fer_test.py",
           "two-fer/.solution.json", "two-fer/README.md",
           "two-fer/two_fer_test.py"],
          ["two-fer", "two-fer-2"]⟩, Option.none)
    ∧ rmtree
        ⟨["two-fer/two_fer.py", "two-fer-2/.solution.json",
          "two-fer-2/README.md", "two-fer-2/two_fer_test.py",
          "two-fer/.solution.json", "two-fer/README.md",
          "two-fer/two_fer_test.py"],
         ["two-fer", "two-fer-2"]⟩ "two-fer-2"
      = .ok ⟨["two-fer/two_fer.py", "two-fer/.solution.json",
              "two-fer/README.md", "two-fer/two_fer_test.py"],
             ["two-fer"]⟩ := by
  refine ⟨rfl, by decide, by decide, by decide, rfl⟩

end Exutil
